import Mathlib

/-!
Verification development for the contact-management API
(`Martizia/HW_14_python_web`): the authentication and session-token
subsystem (`src/routes/auth.py`, `src/repository/users.py`), the
ownership-scoped contact store (`src/repository/contacts.py`,
`src/routes/contacts.py`), the token codec and the per-route rate
limiter.  Python coroutines over an SQLAlchemy session are embedded as
pure Lean functions over an explicit list-of-records store; machine
time is an abstract `Nat` clock.
-/

/-- Kind tag carried in a token payload: access, refresh or
email-verification. -/
inductive TokenKind where
  | access
  | refresh
  | emailVerification
deriving DecidableEq, Repr

/-- Error taxonomy of the service (HTTP failures of the routes). -/
inductive AuthError where
  | AccountExists
  | InvalidEmail
  | EmailNotConfirmed
  | InvalidPassword
  | InvalidToken
  | WrongTokenKind
  | TokenMismatch
  | UserNotFound
  | NotFound
  | RateLimited
deriving DecidableEq, Repr

/-- Modelled from the spec: `src/services/auth.py` is not in the
snapshot.  A token is a signed, tamper-evident structure carrying
`subject, kind, issued_at, expires_at`; since the signature makes the
string injective in the payload, token strings are embedded as the
payload itself. -/
structure TokenPayload where
  subject : String
  kind : TokenKind
  issued_at : Nat
  expires_at : Nat
deriving DecidableEq, Repr

/-- Modelled from the spec: `issue(subject, kind, ttl) -> token_string`
stamps the current time and the expiry `now + ttl`. -/
def issue (subject : String) (kind : TokenKind) (ttl : Nat) (now : Nat) : TokenPayload :=
  { subject := subject, kind := kind, issued_at := now, expires_at := now + ttl }

/-- Modelled from the spec: `decode(token_string, expected_kind)` fails
`InvalidToken` when `expires_at` is in the past (a valid token has
`now < issued_at + ttl`), fails `WrongTokenKind` when the payload kind
differs from the expected kind, and otherwise returns the subject. -/
def decode (t : TokenPayload) (expected : TokenKind) (now : Nat) : Except AuthError String :=
  if t.expires_at ≤ now then .error .InvalidToken
  else if t.kind ≠ expected then .error .WrongTokenKind
  else .ok t.subject

/-- Modelled from the spec: access-token TTL (minutes-to-hour scale). -/
def ACCESS_TOKEN_TTL : Nat := 3600

/-- Modelled from the spec: refresh-token TTL (days scale). -/
def REFRESH_TOKEN_TTL : Nat := 604800

/-- Modelled from the spec: email-verification-token TTL
(hours-to-day scale). -/
def EMAIL_TOKEN_TTL : Nat := 86400

/-- Modelled from the spec: one-way password hashing
(`auth_service.get_password_hash`); the model keeps the hash injective
in the password, which is all the claims use. -/
def get_password_hash (p : String) : String := "hashed:" ++ p

/-- Modelled from the spec: `auth_service.verify_password` compares the
candidate's hash against the stored hash. -/
def verify_password (plain hashed : String) : Bool :=
  hashed == get_password_hash plain

/-- A row of the `users` table (`src/database/models.py`): identity,
hashed password, confirmation flag, the single stored refresh token and
an avatar reference. -/
structure User where
  id : Nat
  username : String
  email : String
  password : String
  confirmed : Bool
  refresh_token : Option TokenPayload
  avatar : Option String
deriving DecidableEq, Repr

/-- `src/repository/users.py::get_user_by_email`:
`select(User).filter_by(email=email)` with `scalar_one_or_none` — the
first (and under the unique-email constraint, only) row with that
email. -/
def get_user_by_email (email : String) (db : List User) : Option User :=
  db.find? (fun u => u.email == email)

/-- Mutating the single ORM object returned by a lookup and committing:
rewrite the first row satisfying `p` with `f`. -/
def updateFirst (p : α → Bool) (f : α → α) : List α → List α
  | [] => []
  | x :: xs => if p x then f x :: xs else x :: updateFirst p f xs

/-- `src/repository/users.py::update_token`: sets
`user.refresh_token = token` and commits. -/
def update_token (email : String) (tok : Option TokenPayload) (db : List User) : List User :=
  updateFirst (fun u => u.email == email) (fun u => { u with refresh_token := tok }) db

/-- `src/repository/users.py::confirmed_email`: looks the user up by
email and sets `confirmed = True`. -/
def confirmed_email_repo (email : String) (db : List User) : List User :=
  updateFirst (fun u => u.email == email) (fun u => { u with confirmed := true }) db

/-- Outcome of a route: a value, a typed HTTP failure, or an unhandled
exception escaping the handler (e.g. an attribute read on `None`). -/
inductive Res (α : Type) where
  | ok (val : α)
  | err (e : AuthError)
  | crash
deriving DecidableEq, Repr

/-- The token pair returned by login and refresh
(`TokenSchema`: access token, refresh token, token type). -/
structure TokenSchema where
  access_token : TokenPayload
  refresh_token : TokenPayload
  token_type : String
deriving DecidableEq, Repr

/-- Modelled from the spec and `tests/test_routes_auth.py`:
`src/schemas/user.py::UserResponse` is absent from the snapshot; the
response schema exposes id, username, email and avatar and carries no
password or hash field. -/
structure UserResponse where
  id : Nat
  username : String
  email : String
  avatar : Option String
deriving DecidableEq, Repr

/-- Serialising a user row through the response schema. -/
def toUserResponse (u : User) : UserResponse :=
  { id := u.id, username := u.username, email := u.email, avatar := u.avatar }

/-- Modelled from the spec: the Gravatar lookup performed by
`create_user` (an external collaborator; on failure the avatar is
null). -/
def gravatar_url (email : String) : Option String :=
  some ("gravatar:" ++ email)

/-- `src/repository/users.py::create_user`: builds a `User` from the
schema fields plus the avatar and inserts it.  `confirmed` defaults to
false per the spec's data model (`src/database/models.py` is absent
from the snapshot). -/
def create_user (username email password : String) (db : List User) : User × List User :=
  let u : User :=
    { id := db.length + 1, username := username, email := email, password := password,
      confirmed := false, refresh_token := none, avatar := gravatar_url email }
  (u, db ++ [u])

/-- `src/routes/auth.py::signup`: 409 `AccountExists` when the email is
taken; otherwise hashes the password, persists the new user and returns
it through the response schema (email dispatch is a fire-and-forget
side effect outside the store). -/
def signup (username email password : String) (db : List User) :
    Res UserResponse × List User :=
  match get_user_by_email email db with
  | some _ => (.err .AccountExists, db)
  | none =>
    let r := create_user username email (get_password_hash password) db
    (.ok (toUserResponse r.1), r.2)

/-- `src/routes/auth.py::login`: lookup by email (`InvalidEmail`), then
the confirmation gate (`EmailNotConfirmed`), then password verification
(`InvalidPassword`); on success issues an access+refresh pair and
persists the new refresh token. -/
def login (username password : String) (now : Nat) (db : List User) :
    Res TokenSchema × List User :=
  match get_user_by_email username db with
  | none => (.err .InvalidEmail, db)
  | some user =>
    if !user.confirmed then (.err .EmailNotConfirmed, db)
    else if !verify_password password user.password then (.err .InvalidPassword, db)
    else
      let atk := issue user.email .access ACCESS_TOKEN_TTL now
      let rtk := issue user.email .refresh REFRESH_TOKEN_TTL now
      (.ok { access_token := atk, refresh_token := rtk, token_type := "bearer" },
       update_token user.email (some rtk) db)

/-- `src/routes/auth.py::refresh_token`: decodes the bearer string as a
refresh token, looks the user up by the decoded subject and reads
`user.refresh_token` without a `None` check (a missing user raises an
`AttributeError` — `crash`); a stored value differing from the
presented string clears the stored token and fails `TokenMismatch`;
otherwise a fresh pair is issued and the stored refresh token is
rotated. -/
def refresh_token_route (token : TokenPayload) (now : Nat) (db : List User) :
    Res TokenSchema × List User :=
  match decode token .refresh now with
  | .error e => (.err e, db)
  | .ok email =>
    match get_user_by_email email db with
    | none => (.crash, db)
    | some user =>
      if user.refresh_token ≠ some token then
        (.err .TokenMismatch, update_token email none db)
      else
        let atk := issue email .access ACCESS_TOKEN_TTL now
        let rtk := issue email .refresh REFRESH_TOKEN_TTL now
        (.ok { access_token := atk, refresh_token := rtk, token_type := "bearer" },
         update_token email (some rtk) db)

/-- Modelled from the spec: `auth_service.get_email_from_token` decodes
with `expected_kind = email-verification`. -/
def get_email_from_token (token : TokenPayload) (now : Nat) : Except AuthError String :=
  decode token .emailVerification now

/-- `src/routes/auth.py::confirmed_email`: decodes the verification
token, 400 `UserNotFound` when no user has the subject email, an
informational message with no state change when already confirmed, and
otherwise persists `confirmed = true`. -/
def confirmed_email_route (token : TokenPayload) (now : Nat) (db : List User) :
    Res String × List User :=
  match get_email_from_token token now with
  | .error e => (.err e, db)
  | .ok email =>
    match get_user_by_email email db with
    | none => (.err .UserNotFound, db)
    | some user =>
      if user.confirmed then (.ok "Your email is already confirmed", db)
      else (.ok "Email confirmed", confirmed_email_repo email db)

/-- A calendar date (year, month, day); the store compares dates
lexicographically, which agrees with chronological order on valid
dates. -/
structure CalDate where
  year : Nat
  month : Nat
  day : Nat
deriving DecidableEq, Repr

/-- Date comparison: lexicographic on (year, month, day). -/
def CalDate.le (a b : CalDate) : Bool :=
  decide (a.year < b.year) ||
    (decide (a.year = b.year) &&
      (decide (a.month < b.month) ||
        (decide (a.month = b.month) && decide (a.day ≤ b.day))))

/-- SQL `BETWEEN`: inclusive on both ends. -/
def dateBetween (x lo hi : CalDate) : Bool :=
  CalDate.le lo x && CalDate.le x hi

/-- Days-since-epoch ordinal of a date (civil-calendar algorithm),
used to implement date plus `timedelta(days=...)`. -/
def toOrd (d : CalDate) : Nat :=
  let y := if d.month ≤ 2 then d.year - 1 else d.year
  let era := y / 400
  let yoe := y % 400
  let mp := if d.month ≤ 2 then d.month + 9 else d.month - 3
  let doy := (153 * mp + 2) / 5 + d.day - 1
  let doe := yoe * 365 + yoe / 4 - yoe / 100 + doy
  era * 146097 + doe

/-- Date of a days-since-epoch ordinal (inverse civil-calendar
algorithm). -/
def fromOrd (z : Nat) : CalDate :=
  let era := z / 146097
  let doe := z % 146097
  let yoe := (doe - doe / 1460 + doe / 36524 - doe / 146096) / 365
  let y := yoe + era * 400
  let doy := doe - (365 * yoe + yoe / 4 - yoe / 100)
  let mp := (5 * doy + 2) / 153
  let d := doy - (153 * mp + 2) / 5 + 1
  let m := if mp < 10 then mp + 3 else mp - 9
  { year := if m ≤ 2 then y + 1 else y, month := m, day := d }

/-- `date + timedelta(days=k)`. -/
def addDays (d : CalDate) (k : Nat) : CalDate :=
  fromOrd (toOrd d + k)

/-- A row of the `contacts` table: contact fields plus the owning
user's id (`filter_by(user=current_user)` compares by that key). -/
structure Contact where
  id : Nat
  name : String
  lastname : String
  email : String
  phone : String
  birthday : CalDate
  notes : String
  favourite : Bool
  owner : Nat
deriving DecidableEq, Repr

/-- `ContactUpdateSchema`: the full-replace payload of the PUT route
(all fields required, `favourite` included). -/
structure ContactUpdateSchema where
  name : String
  lastname : String
  email : String
  phone : String
  birthday : CalDate
  notes : String
  favourite : Bool
deriving DecidableEq, Repr

/-- The row filter `filter_by(id=contact_id, user=current_user)`. -/
def contactMatch (cid uid : Nat) (c : Contact) : Bool :=
  c.id == cid && c.owner == uid

/-- `src/repository/contacts.py::get_contacts`: the user's contacts
with `offset` applied before `limit`. -/
def get_contacts (limit offset : Nat) (db : List Contact) (uid : Nat) : List Contact :=
  ((db.filter (fun c => c.owner == uid)).drop offset).take limit

/-- `src/repository/contacts.py::get_contact`: the row with the given
id owned by the current user, if any. -/
def get_contact (cid : Nat) (db : List Contact) (uid : Nat) : Option Contact :=
  db.find? (contactMatch cid uid)

/-- `src/repository/contacts.py::create_contact`: inserts a contact
owned by the current user. -/
def create_contact (b : ContactUpdateSchema) (db : List Contact) (uid : Nat) :
    Contact × List Contact :=
  let c : Contact :=
    { id := db.length + 1, name := b.name, lastname := b.lastname, email := b.email,
      phone := b.phone, birthday := b.birthday, notes := b.notes,
      favourite := b.favourite, owner := uid }
  (c, db ++ [c])

/-- The field-by-field assignment performed by `update_contact`. -/
def applyUpdate (b : ContactUpdateSchema) (c : Contact) : Contact :=
  { c with
    name := b.name,
    lastname := b.lastname,
    email := b.email,
    phone := b.phone,
    birthday := b.birthday,
    notes := b.notes,
    favourite := b.favourite }

/-- `src/repository/contacts.py::update_contact`: if the id belongs to
the current user, replaces every contact field from the payload and
returns the row; otherwise returns nothing and changes nothing. -/
def update_contact (cid : Nat) (b : ContactUpdateSchema) (db : List Contact) (uid : Nat) :
    Option Contact × List Contact :=
  match db.find? (contactMatch cid uid) with
  | none => (none, db)
  | some c => (some (applyUpdate b c), updateFirst (contactMatch cid uid) (applyUpdate b) db)

/-- Deleting the single ORM object returned by a lookup: remove the
first row satisfying `p`. -/
def removeFirst (p : α → Bool) : List α → List α
  | [] => []
  | x :: xs => if p x then xs else x :: removeFirst p xs

/-- `src/repository/contacts.py::delete_contact`: removes and returns
the row when the id belongs to the current user. -/
def delete_contact (cid : Nat) (db : List Contact) (uid : Nat) :
    Option Contact × List Contact :=
  match db.find? (contactMatch cid uid) with
  | none => (none, db)
  | some c => (some c, removeFirst (contactMatch cid uid) db)

/-- The single-field assignment performed by `update_status_contact`. -/
def setFavourite (fav : Bool) (c : Contact) : Contact :=
  { c with favourite := fav }

/-- `src/repository/contacts.py::update_status_contact`: if the id
belongs to the current user, sets `favourite` from the payload and
returns the row; otherwise returns nothing and changes nothing. -/
def update_status_contact (cid : Nat) (fav : Bool) (db : List Contact) (uid : Nat) :
    Option Contact × List Contact :=
  match db.find? (contactMatch cid uid) with
  | none => (none, db)
  | some c => (some (setFavourite fav c), updateFirst (contactMatch cid uid) (setFavourite fav) db)

/-- Lower-cased character list of a string (`ilike` is
case-insensitive). -/
def lowerChars (s : String) : List Char :=
  s.data.map Char.toLower

/-- Whether `p` begins `l`. -/
def isPrefB : List Char → List Char → Bool
  | [], _ => true
  | _ :: _, [] => false
  | a :: as, b :: bs => a == b && isPrefB as bs

/-- Whether `p` occurs inside `l`. -/
def isSubB (p : List Char) : List Char → Bool
  | [] => p.isEmpty
  | x :: xs => isPrefB p (x :: xs) || isSubB p xs

/-- SQL `field ILIKE '%pat%'`: case-insensitive substring match. -/
def ilike (field pat : String) : Bool :=
  isSubB (lowerChars pat) (lowerChars field)

/-- `src/repository/contacts.py::search_contacts`: the user's contacts
whose name, lastname or email matches the search term. -/
def search_contacts (search : String) (db : List Contact) (uid : Nat) : List Contact :=
  db.filter (fun c => c.owner == uid &&
    (ilike c.name search || ilike c.lastname search || ilike c.email search))

/-- `src/repository/contacts.py::get_birthday_contacts`: keeps the
user's contacts whose birthday month/day, re-dated into the current
year or into the year of `today + 365 days`, falls between `today` and
`today + days` inclusive. -/
def get_birthday_contacts (days : Nat) (today : CalDate) (db : List Contact) (uid : Nat) :
    List Contact :=
  let end_date := addDays today days
  let next_year := (addDays today 365).year
  db.filter (fun c => c.owner == uid &&
    (dateBetween { year := today.year, month := c.birthday.month, day := c.birthday.day }
        today end_date ||
     dateBetween { year := next_year, month := c.birthday.month, day := c.birthday.day }
        today end_date))

/-- The next occurrence of a birthday month/day on or after `today`:
this year's re-dating when it has not passed yet, otherwise next
year's. -/
def nextBirthdayOn (today : CalDate) (bm bd : Nat) : CalDate :=
  if CalDate.le today { year := today.year, month := bm, day := bd } then
    { year := today.year, month := bm, day := bd }
  else
    { year := today.year + 1, month := bm, day := bd }

/-- Specification-side birthday filter: the contact's next birthday
occurrence lies in the inclusive range from `today` to
`today + days`. -/
def birthdayInRangeSpec (days : Nat) (today : CalDate) (c : Contact) : Bool :=
  dateBetween (nextBirthdayOn today c.birthday.month c.birthday.day)
    today (addDays today days)

/-- State of one fixed rate-limit window for a (client, route) key. -/
structure RateLimitWindow where
  windowStart : Nat
  count : Nat
deriving DecidableEq, Repr

/-- Modelled from the spec: the `fastapi_limiter` dependency is an
external collaborator; `allowReq` is the fixed-window counter — the
counter resets when the window has elapsed, and a request is admitted
while the counter is below the route's threshold. -/
def allowReq (n w : Nat) (now : Nat) (s : RateLimitWindow) : Bool × RateLimitWindow :=
  let s := if s.windowStart + w ≤ now then { windowStart := now, count := 0 } else s
  if s.count < n then (true, { windowStart := s.windowStart, count := s.count + 1 })
  else (false, s)

/-- Runs the limiter over a sequence of request times, collecting each
admission decision. -/
def runLimiter (n w : Nat) : List Nat → RateLimitWindow → List Bool × RateLimitWindow
  | [], s => ([], s)
  | t :: ts, s =>
    let r := allowReq n w t s
    let rest := runLimiter n w ts r.2
    (r.1 :: rest.1, rest.2)

/-- Number of admitted requests in a decision sequence. -/
def countTrue (l : List Bool) : Nat :=
  (l.filter id).length

/-- The contact routes of `src/routes/contacts.py`. -/
inductive ContactRoute where
  | list
  | getOne
  | create
  | put
  | patchStatus
  | remove
  | search
  | birthdays
deriving DecidableEq, Repr

/-- The `RateLimiter(times=..., seconds=...)` configuration attached to
each contact route in `src/routes/contacts.py`. -/
def routeQuota : ContactRoute → Nat × Nat
  | .list => (10, 60)
  | .getOne => (10, 60)
  | .create => (5, 60)
  | .put => (3, 60)
  | .patchStatus => (3, 60)
  | .remove => (1, 60)
  | .search => (10, 60)
  | .birthdays => (10, 60)

/-- `src/routes/contacts.py::get_contact` (GET, lines 51-80): 404
`NotFound` when the repository returns no row. -/
def get_contact_route (cid : Nat) (db : List Contact) (uid : Nat) :
    Res Contact × List Contact :=
  match get_contact cid db uid with
  | none => (.err .NotFound, db)
  | some c => (.ok c, db)

/-- `src/routes/contacts.py::update_contact` (PUT, lines 112-145): 404
`NotFound` when the repository returns no row. -/
def update_contact_route (cid : Nat) (b : ContactUpdateSchema) (db : List Contact)
    (uid : Nat) : Res Contact × List Contact :=
  let r := update_contact cid b db uid
  match r.1 with
  | none => (.err .NotFound, r.2)
  | some c => (.ok c, r.2)

/-- `src/routes/contacts.py::update_status_contact` (PATCH, lines
176-213): 404 `NotFound` when the repository returns no row. -/
def update_status_contact_route (cid : Nat) (fav : Bool) (db : List Contact)
    (uid : Nat) : Res Contact × List Contact :=
  let r := update_status_contact cid fav db uid
  match r.1 with
  | none => (.err .NotFound, r.2)
  | some c => (.ok c, r.2)

/-- `src/routes/contacts.py::delete_contact` (DELETE, lines 148-173):
returns the repository result with status 204 and never checks for a
missing row — no 404 is raised on any input. -/
def delete_contact_route (cid : Nat) (db : List Contact) (uid : Nat) :
    Res (Option Contact) × List Contact :=
  let r := delete_contact cid db uid
  (.ok r.1, r.2)

/-- Unfolding `CalDate.le` into arithmetic. -/
theorem calLe_iff (a b : CalDate) :
    CalDate.le a b = true ↔
      (a.year < b.year ∨ (a.year = b.year ∧
        (a.month < b.month ∨ (a.month = b.month ∧ a.day ≤ b.day)))) := by
  simp [CalDate.le, Bool.or_eq_true, Bool.and_eq_true, decide_eq_true_eq]

/-- `CalDate.le` is transitive. -/
theorem calLe_trans {a b c : CalDate} (h1 : CalDate.le a b = true)
    (h2 : CalDate.le b c = true) : CalDate.le a c = true := by
  rw [calLe_iff] at h1 h2 ⊢
  omega

/-- Advancing the year by one advances a date in `CalDate.le`. -/
theorem calLe_next_year (a : CalDate) (bm bd : Nat) :
    CalDate.le a { year := a.year + 1, month := bm, day := bd } = true := by
  rw [calLe_iff]
  exact Or.inl (Nat.lt_succ_self a.year)

/-- The disjunction tested by the birthday query equals membership of
the next birthday occurrence in the queried range. -/
theorem birthday_disj_eq (today endd : CalDate) (bm bd : Nat) :
    (dateBetween { year := today.year, month := bm, day := bd } today endd ||
      dateBetween { year := today.year + 1, month := bm, day := bd } today endd)
      = dateBetween (nextBirthdayOn today bm bd) today endd := by
  by_cases h : CalDate.le today { year := today.year, month := bm, day := bd } = true
  · by_cases h2 :
        CalDate.le { year := today.year + 1, month := bm, day := bd } endd = true
    · have hcy : CalDate.le { year := today.year, month := bm, day := bd } endd = true := by
        refine calLe_trans ?_ h2
        exact calLe_next_year { year := today.year, month := bm, day := bd } bm bd
      simp [dateBetween, nextBirthdayOn, h, h2, hcy,
        calLe_next_year today bm bd]
    · simp [dateBetween, nextBirthdayOn, h, Bool.eq_false_iff.mpr h2]
  · simp [dateBetween, nextBirthdayOn, Bool.eq_false_iff.mpr h]

/-- `find?` after `updateFirst` with a predicate preserved by the
rewrite: the found row is the rewritten one. -/
theorem find?_updateFirst (p : α → Bool) (f : α → α)
    (hpf : ∀ x, p x = true → p (f x) = true) :
    ∀ l : List α, List.find? p (updateFirst p f l) = (List.find? p l).map f := by
  intro l
  induction l with
  | nil => simp [updateFirst]
  | cons x xs ih =>
    by_cases h : p x = true
    · simp [updateFirst, h, List.find?, hpf x h]
    · have h' : p x = false := Bool.eq_false_iff.mpr h
      simp [updateFirst, h', List.find?, ih]

/-- `find?` on a list split around its first matching element. -/
theorem find?_first_split (p : α → Bool) :
    ∀ (l1 : List α) (c : α) (l2 : List α), (∀ x ∈ l1, p x = false) → p c = true →
      List.find? p (l1 ++ c :: l2) = some c := by
  intro l1
  induction l1 with
  | nil => intro c l2 _ hc; simp [List.find?, hc]
  | cons x xs ih =>
    intro c l2 hall hc
    have hx : p x = false := hall x (by simp)
    simp only [List.cons_append, List.find?, hx]
    exact ih c l2 (fun y hy => hall y (by simp [hy])) hc

/-- `updateFirst` on a list split around its first matching element
rewrites exactly that element. -/
theorem updateFirst_split (p : α → Bool) (f : α → α) :
    ∀ (l1 : List α) (c : α) (l2 : List α), (∀ x ∈ l1, p x = false) → p c = true →
      updateFirst p f (l1 ++ c :: l2) = l1 ++ f c :: l2 := by
  intro l1
  induction l1 with
  | nil => intro c l2 _ hc; simp [updateFirst, hc]
  | cons x xs ih =>
    intro c l2 hall hc
    have hx : p x = false := hall x (by simp)
    have ih' := ih c l2 (fun y hy => hall y (by simp [hy])) hc
    simp only [List.cons_append, updateFirst, hx, Bool.false_eq_true, if_false]
    exact congrArg (fun t => x :: t) ih'

/-- C8: decoding with the matching kind before expiry returns the
original subject, and decoding with the other kind fails with
`WrongTokenKind`. -/
theorem token_codec_spec (subject : String) (kind kind' : TokenKind) (ttl now now' : Nat) :
    (now' < now + ttl → decode (issue subject kind ttl now) kind now' = .ok subject) ∧
    (now' < now + ttl → kind ≠ kind' →
      decode (issue subject kind ttl now) kind' now' = .error .WrongTokenKind) := by
  constructor
  · intro h
    simp only [decode, issue]
    rw [if_neg (by omega), if_neg (by simp)]
  · intro h hk
    simp only [decode, issue]
    rw [if_neg (by omega), if_pos hk]

theorem token_codec_spec_witness :
    decode (issue "a@x.com" .access 3600 0) .access 100 = .ok "a@x.com" ∧
    decode (issue "a@x.com" .access 3600 0) .refresh 100 = .error .WrongTokenKind :=
  ⟨(token_codec_spec "a@x.com" .access .refresh 3600 0 100).1 (by omega),
   (token_codec_spec "a@x.com" .access .refresh 3600 0 100).2 (by omega) (by simp)⟩

/-- A confirmed user on file, used to instantiate theorems. -/
def uAlice : User :=
  { id := 1, username := "alice", email := "a@x.com",
    password := get_password_hash "12345678", confirmed := true,
    refresh_token := none, avatar := none }

/-- An unconfirmed user on file, used to instantiate theorems. -/
def uBob : User :=
  { id := 2, username := "bob", email := "b@x.com",
    password := get_password_hash "12345678", confirmed := false,
    refresh_token := none, avatar := none }

/-- C2: login fails `InvalidEmail` when no user has the email,
`EmailNotConfirmed` (before any password check or token issuance, with
the store unchanged) when the user is unconfirmed, `InvalidPassword`
when hash verification fails, and only when all three checks pass
returns an access+refresh pair with a token-type marker and persists
the new refresh token over any prior value. -/
theorem login_spec (email pw : String) (now : Nat) (db : List User) :
    (get_user_by_email email db = none →
      login email pw now db = (.err .InvalidEmail, db)) ∧
    (∀ u, get_user_by_email email db = some u → u.confirmed = false →
      login email pw now db = (.err .EmailNotConfirmed, db)) ∧
    (∀ u, get_user_by_email email db = some u → u.confirmed = true →
      verify_password pw u.password = false →
      login email pw now db = (.err .InvalidPassword, db)) ∧
    (∀ u, get_user_by_email email db = some u → u.confirmed = true →
      verify_password pw u.password = true →
      login email pw now db =
        (.ok { access_token := issue u.email .access ACCESS_TOKEN_TTL now,
               refresh_token := issue u.email .refresh REFRESH_TOKEN_TTL now,
               token_type := "bearer" },
         update_token u.email (some (issue u.email .refresh REFRESH_TOKEN_TTL now)) db)) := by
  refine ⟨?_, ?_, ?_, ?_⟩
  · intro h
    simp [login, h]
  · intro u h hc
    simp [login, h, hc]
  · intro u h hc hv
    simp [login, h, hc, hv]
  · intro u h hc hv
    simp [login, h, hc, hv]

theorem login_spec_witness :
    login "b@x.com" "12345678" 5 [uBob] = (.err .EmailNotConfirmed, [uBob]) ∧
    login "a@x.com" "wrong" 5 [uAlice] = (.err .InvalidPassword, [uAlice]) ∧
    login "a@x.com" "12345678" 5 [uAlice] =
      (.ok { access_token := issue "a@x.com" .access ACCESS_TOKEN_TTL 5,
             refresh_token := issue "a@x.com" .refresh REFRESH_TOKEN_TTL 5,
             token_type := "bearer" },
       update_token "a@x.com" (some (issue "a@x.com" .refresh REFRESH_TOKEN_TTL 5)) [uAlice]) :=
  ⟨(login_spec "b@x.com" "12345678" 5 [uBob]).2.1 uBob (by rfl) (by rfl),
   (login_spec "a@x.com" "wrong" 5 [uAlice]).2.2.1 uAlice (by rfl) (by rfl) (by rfl),
   (login_spec "a@x.com" "12345678" 5 [uAlice]).2.2.2 uAlice (by rfl) (by rfl) (by rfl)⟩

/-- C4: signup fails `AccountExists` with the store unchanged when the
email is taken; otherwise persists a new user with `confirmed = false`
whose password field holds only the one-way hash, and returns it
through a response schema that carries no password data (the response
is invariant under the stored password). -/
theorem signup_spec (username email pw : String) (db : List User) :
    (∀ u, get_user_by_email email db = some u →
      signup username email pw db = (.err .AccountExists, db)) ∧
    (get_user_by_email email db = none →
      signup username email pw db =
        (.ok (toUserResponse (create_user username email (get_password_hash pw) db).1),
         db ++ [(create_user username email (get_password_hash pw) db).1]) ∧
      (create_user username email (get_password_hash pw) db).1.confirmed = false ∧
      (create_user username email (get_password_hash pw) db).1.password = get_password_hash pw) ∧
    (∀ u p, toUserResponse { u with password := p } = toUserResponse u) := by
  refine ⟨?_, ?_, ?_⟩
  · intro u h
    simp [signup, h]
  · intro h
    exact ⟨by simp [signup, h, create_user], rfl, rfl⟩
  · intro u p
    rfl

theorem signup_spec_witness :
    signup "alice2" "a@x.com" "pw" [uAlice] = (.err .AccountExists, [uAlice]) ∧
    signup "carol" "c@x.com" "pw" [] =
      (.ok (toUserResponse (create_user "carol" "c@x.com" (get_password_hash "pw") []).1),
       [] ++ [(create_user "carol" "c@x.com" (get_password_hash "pw") []).1]) ∧
    (create_user "carol" "c@x.com" (get_password_hash "pw") []).1.confirmed = false :=
  ⟨(signup_spec "alice2" "a@x.com" "pw" [uAlice]).1 uAlice (by rfl),
   ((signup_spec "carol" "c@x.com" "pw" []).2.1 (by rfl)).1,
   ((signup_spec "carol" "c@x.com" "pw" []).2.1 (by rfl)).2.1⟩

/-- C3: a refresh token that decodes to an email with no matching user
makes the refresh route read `refresh_token` off the absent row — the
handler ends in an unhandled exception, neither a success nor a typed
failure, and the store is untouched. -/
theorem refresh_missing_user_crash (token : TokenPayload) (now : Nat) (db : List User)
    (email : String) (hdec : decode token .refresh now = .ok email)
    (hnone : get_user_by_email email db = none) :
    refresh_token_route token now db = (.crash, db) := by
  simp [refresh_token_route, hdec, hnone]

theorem refresh_missing_user_crash_witness :
    refresh_token_route
      { subject := "ghost@x.com", kind := .refresh, issued_at := 0, expires_at := 100 }
      0 [] = (.crash, []) :=
  refresh_missing_user_crash
    { subject := "ghost@x.com", kind := .refresh, issued_at := 0, expires_at := 100 }
    0 [] "ghost@x.com" (by rfl) (by rfl)

/-- Refresh with a stored token differing from the presented one clears
the stored token and fails `TokenMismatch`. -/
theorem refresh_mismatch_helper (token : TokenPayload) (now : Nat) (db : List User)
    (email : String) (u : User) (hdec : decode token .refresh now = .ok email)
    (hu : get_user_by_email email db = some u)
    (hne : u.refresh_token ≠ some token) :
    refresh_token_route token now db = (.err .TokenMismatch, update_token email none db) := by
  simp only [refresh_token_route, hdec, hu]
  rw [if_pos hne]

/-- Refresh with a matching stored token issues a fresh pair and
rotates the stored refresh token. -/
theorem refresh_success_helper (token : TokenPayload) (now : Nat) (db : List User)
    (email : String) (u : User) (hdec : decode token .refresh now = .ok email)
    (hu : get_user_by_email email db = some u)
    (hmatch : u.refresh_token = some token) :
    refresh_token_route token now db =
      (.ok { access_token := issue email .access ACCESS_TOKEN_TTL now,
             refresh_token := issue email .refresh REFRESH_TOKEN_TTL now,
             token_type := "bearer" },
       update_token email (some (issue email .refresh REFRESH_TOKEN_TTL now)) db) := by
  simp only [refresh_token_route, hdec, hu]
  rw [if_neg (by simp [hmatch])]

/-- Looking a user up after rewriting their refresh token finds the
rewritten row. -/
theorem get_user_after_update_token (email : String) (tok : Option TokenPayload)
    (db : List User) (u : User) (hu : get_user_by_email email db = some u) :
    get_user_by_email email (update_token email tok db)
      = some { u with refresh_token := tok } := by
  unfold get_user_by_email update_token
  rw [find?_updateFirst (fun x : User => x.email == email)
    (fun x : User => { x with refresh_token := tok }) (fun x hx => hx)]
  unfold get_user_by_email at hu
  rw [hu]
  rfl

/-- C1: a presented refresh token that decodes to a user's email but
differs from the stored value clears the stored token and fails
`TokenMismatch`; a matching one rotates the stored token to the newly
issued refresh token, so replaying the original token on a strictly
later clock tick fails `TokenMismatch`. -/
theorem refresh_rotation_spec (token : TokenPayload) (now1 now2 : Nat) (db : List User)
    (email : String) :
    (∀ u, decode token .refresh now1 = .ok email → get_user_by_email email db = some u →
      u.refresh_token ≠ some token →
      refresh_token_route token now1 db = (.err .TokenMismatch, update_token email none db)) ∧
    (∀ u, decode token .refresh now1 = .ok email → get_user_by_email email db = some u →
      u.refresh_token = some token →
      refresh_token_route token now1 db =
        (.ok { access_token := issue email .access ACCESS_TOKEN_TTL now1,
               refresh_token := issue email .refresh REFRESH_TOKEN_TTL now1,
               token_type := "bearer" },
         update_token email (some (issue email .refresh REFRESH_TOKEN_TTL now1)) db)) ∧
    (∀ u, decode token .refresh now1 = .ok email → decode token .refresh now2 = .ok email →
      get_user_by_email email db = some u → u.refresh_token = some token →
      token.issued_at ≠ now1 →
      (refresh_token_route token now2 (refresh_token_route token now1 db).2).1 =
        .err .TokenMismatch) := by
  refine ⟨?_, ?_, ?_⟩
  · intro u hdec hu hne
    exact refresh_mismatch_helper token now1 db email u hdec hu hne
  · intro u hdec hu hmatch
    exact refresh_success_helper token now1 db email u hdec hu hmatch
  · intro u hdec1 hdec2 hu hmatch hne
    have hne1 : some (issue email .refresh REFRESH_TOKEN_TTL now1) ≠ some token := by
      intro hcon
      apply hne
      rw [← Option.some.inj hcon]
      rfl
    have hu1 := get_user_after_update_token email
      (some (issue email .refresh REFRESH_TOKEN_TTL now1)) db u hu
    rw [refresh_success_helper token now1 db email u hdec1 hu hmatch,
      refresh_mismatch_helper token now2 _ email _ hdec2 hu1 hne1]

/-- A stored refresh token for the confirmed user `uAlice`. -/
def tokA : TokenPayload :=
  { subject := "a@x.com", kind := .refresh, issued_at := 0, expires_at := 604800 }

/-- `uAlice` with `tokA` on file. -/
def uAliceTok : User :=
  { uAlice with refresh_token := some tokA }

theorem refresh_rotation_spec_witness :
    refresh_token_route tokA 10 [uAlice] =
      (.err .TokenMismatch, update_token "a@x.com" none [uAlice]) ∧
    refresh_token_route tokA 10 [uAliceTok] =
      (.ok { access_token := issue "a@x.com" .access ACCESS_TOKEN_TTL 10,
             refresh_token := issue "a@x.com" .refresh REFRESH_TOKEN_TTL 10,
             token_type := "bearer" },
       update_token "a@x.com" (some (issue "a@x.com" .refresh REFRESH_TOKEN_TTL 10)) [uAliceTok]) ∧
    (refresh_token_route tokA 20 (refresh_token_route tokA 10 [uAliceTok]).2).1 =
      .err .TokenMismatch :=
  ⟨(refresh_rotation_spec tokA 10 20 [uAlice] "a@x.com").1 uAlice (by rfl) (by rfl)
      (by intro h; exact Option.noConfusion h),
   (refresh_rotation_spec tokA 10 20 [uAliceTok] "a@x.com").2.1 uAliceTok (by rfl) (by rfl)
      (by rfl),
   (refresh_rotation_spec tokA 10 20 [uAliceTok] "a@x.com").2.2 uAliceTok (by rfl) (by rfl)
      (by rfl) (by rfl) (by decide)⟩

/-- Confirm-email with a valid token whose subject has no user fails
`UserNotFound` with the store unchanged. -/
theorem confirm_notfound_helper (token : TokenPayload) (now : Nat) (db : List User)
    (email : String) (hdec : decode token .emailVerification now = .ok email)
    (hnone : get_user_by_email email db = none) :
    confirmed_email_route token now db = (.err .UserNotFound, db) := by
  simp [confirmed_email_route, get_email_from_token, hdec, hnone]

/-- Confirm-email on an already-confirmed user returns the
informational message and changes nothing. -/
theorem confirm_already_helper (token : TokenPayload) (now : Nat) (db : List User)
    (email : String) (u : User) (hdec : decode token .emailVerification now = .ok email)
    (hu : get_user_by_email email db = some u) (hc : u.confirmed = true) :
    confirmed_email_route token now db = (.ok "Your email is already confirmed", db) := by
  simp [confirmed_email_route, get_email_from_token, hdec, hu, hc]

/-- Confirm-email on an unconfirmed user persists `confirmed = true`. -/
theorem confirm_sets_helper (token : TokenPayload) (now : Nat) (db : List User)
    (email : String) (u : User) (hdec : decode token .emailVerification now = .ok email)
    (hu : get_user_by_email email db = some u) (hc : u.confirmed = false) :
    confirmed_email_route token now db = (.ok "Email confirmed", confirmed_email_repo email db) := by
  simp [confirmed_email_route, get_email_from_token, hdec, hu, hc]

/-- Looking a user up after persisting their confirmation finds the
confirmed row. -/
theorem get_user_after_confirm (email : String) (db : List User) (u : User)
    (hu : get_user_by_email email db = some u) :
    get_user_by_email email (confirmed_email_repo email db)
      = some { u with confirmed := true } := by
  unfold get_user_by_email confirmed_email_repo
  rw [find?_updateFirst (fun x : User => x.email == email)
    (fun x : User => { x with confirmed := true }) (fun x hx => hx)]
  unfold get_user_by_email at hu
  rw [hu]
  rfl

/-- C5: confirm-email fails `UserNotFound` when the decoded subject has
no user, succeeds with a distinct informational message and no state
change when the user is already confirmed, otherwise persists
`confirmed = true`; a second call with a valid token for the same user
leaves the store identical. -/
theorem confirm_email_spec (token : TokenPayload) (now1 now2 : Nat) (db : List User)
    (email : String) :
    (decode token .emailVerification now1 = .ok email → get_user_by_email email db = none →
      confirmed_email_route token now1 db = (.err .UserNotFound, db)) ∧
    (∀ u, decode token .emailVerification now1 = .ok email →
      get_user_by_email email db = some u → u.confirmed = true →
      confirmed_email_route token now1 db = (.ok "Your email is already confirmed", db)) ∧
    (∀ u, decode token .emailVerification now1 = .ok email →
      get_user_by_email email db = some u → u.confirmed = false →
      confirmed_email_route token now1 db =
        (.ok "Email confirmed", confirmed_email_repo email db)) ∧
    (∀ u, decode token .emailVerification now1 = .ok email →
      decode token .emailVerification now2 = .ok email →
      get_user_by_email email db = some u →
      (confirmed_email_route token now2 (confirmed_email_route token now1 db).2).2 =
        (confirmed_email_route token now1 db).2) := by
  refine ⟨?_, ?_, ?_, ?_⟩
  · intro hdec hnone
    exact confirm_notfound_helper token now1 db email hdec hnone
  · intro u hdec hu hc
    exact confirm_already_helper token now1 db email u hdec hu hc
  · intro u hdec hu hc
    exact confirm_sets_helper token now1 db email u hdec hu hc
  · intro u hdec1 hdec2 hu
    cases hc : u.confirmed with
    | true =>
      rw [confirm_already_helper token now1 db email u hdec1 hu hc]
      rw [confirm_already_helper token now2 db email u hdec2 hu hc]
    | false =>
      rw [confirm_sets_helper token now1 db email u hdec1 hu hc]
      have hu1 := get_user_after_confirm email db u hu
      rw [confirm_already_helper token now2 (confirmed_email_repo email db) email
        { u with confirmed := true } hdec2 hu1 rfl]

/-- A verification token for the unconfirmed user `uBob`. -/
def tokVB : TokenPayload :=
  { subject := "b@x.com", kind := .emailVerification, issued_at := 0, expires_at := 86400 }

theorem confirm_email_spec_witness :
    confirmed_email_route tokVB 10 [] = (.err .UserNotFound, []) ∧
    confirmed_email_route tokVB 10 [uBob] =
      (.ok "Email confirmed", confirmed_email_repo "b@x.com" [uBob]) ∧
    (confirmed_email_route tokVB 20 (confirmed_email_route tokVB 10 [uBob]).2).2 =
      (confirmed_email_route tokVB 10 [uBob]).2 :=
  ⟨(confirm_email_spec tokVB 10 20 [] "b@x.com").1 (by rfl) (by rfl),
   (confirm_email_spec tokVB 10 20 [uBob] "b@x.com").2.2.1 uBob (by rfl) (by rfl) (by rfl),
   (confirm_email_spec tokVB 10 20 [uBob] "b@x.com").2.2.2 uBob (by rfl) (by rfl) (by rfl)⟩

/-- C6 (amended): every contact returned by list, search, birthday
query or single-contact lookup belongs to the requesting user; an id
that matches no contact of the user yields no contact and leaves the
store unchanged for get, update, status-update and delete, and is
surfaced as 404 `NotFound` by the get, update and status-update
routes, while the delete route performs no missing-row check and
responds 204 with no contact and no 404. -/
theorem contacts_owner_scoped (limit offset cid uid days : Nat) (db : List Contact)
    (s : String) (today : CalDate) (b : ContactUpdateSchema) (fav : Bool) :
    (∀ c ∈ get_contacts limit offset db uid, c.owner = uid) ∧
    (∀ c ∈ search_contacts s db uid, c.owner = uid) ∧
    (∀ c ∈ get_birthday_contacts days today db uid, c.owner = uid) ∧
    (∀ c, get_contact cid db uid = some c → c.owner = uid) ∧
    ((∀ c ∈ db, c.id = cid → c.owner ≠ uid) →
      get_contact cid db uid = none ∧
      update_contact cid b db uid = (none, db) ∧
      update_status_contact cid fav db uid = (none, db) ∧
      delete_contact cid db uid = (none, db) ∧
      get_contact_route cid db uid = (.err .NotFound, db) ∧
      update_contact_route cid b db uid = (.err .NotFound, db) ∧
      update_status_contact_route cid fav db uid = (.err .NotFound, db) ∧
      delete_contact_route cid db uid = (.ok none, db)) := by
  refine ⟨?_, ?_, ?_, ?_, ?_⟩
  · intro c hc
    have h1 : c ∈ (db.filter (fun c => c.owner == uid)).drop offset :=
      List.take_subset _ _ hc
    have h2 : c ∈ db.filter (fun c => c.owner == uid) :=
      List.drop_subset _ _ h1
    exact beq_iff_eq.mp (List.mem_filter.mp h2).2
  · intro c hc
    have hp := (List.mem_filter.mp hc).2
    simp only [Bool.and_eq_true] at hp
    exact beq_iff_eq.mp hp.1
  · intro c hc
    simp only [get_birthday_contacts] at hc
    have hp := (List.mem_filter.mp hc).2
    simp only [Bool.and_eq_true] at hp
    exact beq_iff_eq.mp hp.1
  · intro c h
    have hp := List.find?_some h
    simp only [contactMatch, Bool.and_eq_true] at hp
    exact beq_iff_eq.mp hp.2
  · intro hno
    have hfind : db.find? (contactMatch cid uid) = none := by
      rw [List.find?_eq_none]
      intro x hx hpx
      simp only [contactMatch, Bool.and_eq_true, beq_iff_eq] at hpx
      exact hno x hx hpx.1 hpx.2
    refine ⟨hfind, by simp [update_contact, hfind], by simp [update_status_contact, hfind],
      by simp [delete_contact, hfind], ?_, ?_, ?_, ?_⟩
    · simp [get_contact_route, get_contact, hfind]
    · simp [update_contact_route, update_contact, hfind]
    · simp [update_status_contact_route, update_status_contact, hfind]
    · simp [delete_contact_route, delete_contact, hfind]

/-- A contact owned by user 2, used to instantiate theorems. -/
def cOther : Contact :=
  { id := 7, name := "Eve", lastname := "Adams", email := "eve@x.com", phone := "2",
    birthday := { year := 1990, month := 6, day := 15 }, notes := "", favourite := false,
    owner := 2 }

/-- A full-replace payload, used to instantiate theorems. -/
def bEx : ContactUpdateSchema :=
  { name := "Nina", lastname := "Ng", email := "n@x.com", phone := "3",
    birthday := { year := 1991, month := 1, day := 2 }, notes := "x", favourite := true }

theorem contacts_owner_scoped_witness :
    get_contact 7 [cOther] 1 = none ∧
    update_contact 7 bEx [cOther] 1 = (none, [cOther]) ∧
    update_status_contact 7 true [cOther] 1 = (none, [cOther]) ∧
    delete_contact 7 [cOther] 1 = (none, [cOther]) ∧
    get_contact_route 7 [cOther] 1 = (.err .NotFound, [cOther]) ∧
    update_contact_route 7 bEx [cOther] 1 = (.err .NotFound, [cOther]) ∧
    update_status_contact_route 7 true [cOther] 1 = (.err .NotFound, [cOther]) ∧
    delete_contact_route 7 [cOther] 1 = (.ok none, [cOther]) :=
  (contacts_owner_scoped 10 0 7 1 7 [cOther] "e"
    { year := 2023, month := 6, day := 10 } bEx true).2.2.2.2 (by decide)

/-- C6, counterexample to the original claim: deleting a contact owned
by a different user is not surfaced as 404 `NotFound` — the delete
route replies 204 carrying no contact. -/
theorem contacts_owner_scoped_cex :
    delete_contact_route 7 [cOther] 1 = (.ok none, [cOther]) ∧
    (delete_contact_route 7 [cOther] 1).1 ≠ Res.err .NotFound := by
  refine ⟨by rfl, ?_⟩
  intro h
  exact Res.noConfusion h

/-- C10: the status update rewrites exactly the first row matching the
id and owner, changing only its `favourite` field, and leaves every
other row untouched; when no row of the user matches, it returns no
contact and leaves the store identical. -/
theorem update_status_frame (cid uid : Nat) (fav : Bool) (l1 l2 db : List Contact)
    (c : Contact) :
    ((∀ x ∈ l1, contactMatch cid uid x = false) → contactMatch cid uid c = true →
      update_status_contact cid fav (l1 ++ c :: l2) uid
        = (some (setFavourite fav c), l1 ++ setFavourite fav c :: l2)) ∧
    ((∀ x ∈ db, contactMatch cid uid x = false) →
      update_status_contact cid fav db uid = (none, db)) := by
  constructor
  · intro hall hc
    have hf := find?_first_split (contactMatch cid uid) l1 c l2 hall hc
    have hupd := updateFirst_split (contactMatch cid uid) (setFavourite fav) l1 c l2 hall hc
    simp [update_status_contact, hf, hupd]
  · intro hall
    have hf : db.find? (contactMatch cid uid) = none := by
      rw [List.find?_eq_none]
      intro x hx
      simp [hall x hx]
    simp [update_status_contact, hf]

/-- A contact owned by user 1 with the same id as `cOther`, used to
instantiate theorems. -/
def cMine : Contact :=
  { id := 7, name := "Ann", lastname := "Lee", email := "ann@x.com", phone := "1",
    birthday := { year := 1990, month := 6, day := 15 }, notes := "", favourite := false,
    owner := 1 }

theorem update_status_frame_witness :
    update_status_contact 7 true ([cOther] ++ cMine :: []) 1
      = (some (setFavourite true cMine), [cOther] ++ setFavourite true cMine :: []) ∧
    update_status_contact 7 true [cOther] 1 = (none, [cOther]) :=
  ⟨(update_status_frame 7 1 true [cOther] [] [cOther] cMine).1 (by decide) (by decide),
   (update_status_frame 7 1 true [cOther] [] [cOther] cMine).2 (by decide)⟩

/-- A contact of user 1 with birthday June 15. -/
def cJun15 : Contact :=
  { id := 1, name := "Ann", lastname := "Lee", email := "ann@x.com", phone := "1",
    birthday := { year := 1990, month := 6, day := 15 }, notes := "", favourite := false,
    owner := 1 }

/-- A contact of user 1 with birthday December 28. -/
def cDec28 : Contact :=
  { id := 2, name := "Dee", lastname := "Winter", email := "dee@x.com", phone := "4",
    birthday := { year := 1988, month := 12, day := 28 }, notes := "", favourite := false,
    owner := 1 }

/-- C9: whenever `today + 365 days` lands in the following calendar
year (every day except January 1 of a leap year), the birthday query
returns exactly the user's contacts whose next birthday occurrence lies
in the inclusive window `today .. today + days`, wrapping the year
boundary; and the spec's three concrete scenarios hold. -/
theorem birthday_query_spec (days : Nat) (today : CalDate) (db : List Contact) (uid : Nat)
    (hny : (addDays today 365).year = today.year + 1) :
    get_birthday_contacts days today db uid
      = db.filter (fun c => c.owner == uid && birthdayInRangeSpec days today c) ∧
    get_birthday_contacts 10 { year := 2023, month := 6, day := 10 } [cJun15] 1 = [cJun15] ∧
    get_birthday_contacts 5 { year := 2023, month := 6, day := 1 } [cJun15] 1 = [] ∧
    get_birthday_contacts 10 { year := 2023, month := 12, day := 25 } [cDec28] 1 = [cDec28] := by
  refine ⟨?_, by rfl, by rfl, by rfl⟩
  unfold get_birthday_contacts birthdayInRangeSpec
  simp only [hny, birthday_disj_eq]

theorem birthday_query_spec_witness :
    get_birthday_contacts 10 { year := 2023, month := 6, day := 10 } [cJun15, cOther] 1
      = List.filter
          (fun c => c.owner == 1 &&
            birthdayInRangeSpec 10 { year := 2023, month := 6, day := 10 } c)
          [cJun15, cOther] :=
  (birthday_query_spec 10 { year := 2023, month := 6, day := 10 } [cJun15, cOther] 1
    (by rfl)).1

/-- Admitted-count of a sequence starting with an admission. -/
theorem countTrue_cons_true (l : List Bool) : countTrue (true :: l) = countTrue l + 1 := by
  simp [countTrue]

/-- Admitted-count of a sequence starting with a denial. -/
theorem countTrue_cons_false (l : List Bool) : countTrue (false :: l) = countTrue l := by
  simp [countTrue]

/-- Running the limiter over requests that all fall inside the open
window starting at `t0`: the counter saturates at the threshold and the
number of admissions is exactly what the counter absorbed. -/
theorem runLimiter_inWindow (n w t0 : Nat) :
    ∀ (ts : List Nat) (c : Nat), c ≤ n → (∀ t ∈ ts, t < t0 + w) →
      countTrue (runLimiter n w ts { windowStart := t0, count := c }).1
          = min (c + ts.length) n - c ∧
      (runLimiter n w ts { windowStart := t0, count := c }).2
          = { windowStart := t0, count := min (c + ts.length) n } := by
  intro ts
  induction ts with
  | nil =>
    intro c hc _
    refine ⟨by simp [runLimiter, countTrue], ?_⟩
    simp only [runLimiter, List.length_nil, Nat.add_zero]
    rw [Nat.min_eq_left hc]
  | cons t ts ih =>
    intro c hc hall
    have ht : ¬ (t0 + w ≤ t) := by
      have := hall t (by simp)
      omega
    have hrest : ∀ x ∈ ts, x < t0 + w := fun x hx => hall x (by simp [hx])
    by_cases hcn : c < n
    · have step : allowReq n w t { windowStart := t0, count := c }
          = (true, { windowStart := t0, count := c + 1 }) := by
        simp [allowReq, ht, hcn]
      have ihh := ih (c + 1) (by omega) hrest
      constructor
      · simp only [runLimiter, step, countTrue_cons_true]
        rw [ihh.1]
        simp only [List.length_cons]
        omega
      · simp only [runLimiter, step]
        rw [ihh.2]
        simp only [List.length_cons]
        have harith : c + 1 + ts.length = c + (ts.length + 1) := by omega
        rw [harith]
    · have step : allowReq n w t { windowStart := t0, count := c }
          = (false, { windowStart := t0, count := c }) := by
        simp [allowReq, ht, hcn]
      have ihh := ih c hc hrest
      constructor
      · simp only [runLimiter, step, countTrue_cons_false]
        rw [ihh.1]
        simp only [List.length_cons]
        omega
      · simp only [runLimiter, step]
        rw [ihh.2]
        simp only [List.length_cons]
        have harith : min (c + ts.length) n = min (c + (ts.length + 1)) n := by omega
        rw [harith]

/-- A full counter inside a live window denies the request and keeps
the state. -/
theorem limiter_full_denies (n w now t0 : Nat) (hlt : now < t0 + w) :
    allowReq n w now { windowStart := t0, count := n }
      = (false, { windowStart := t0, count := n }) := by
  have h : ¬ (t0 + w ≤ now) := by omega
  simp [allowReq, h]

/-- Once the window has elapsed the counter resets and the request is
admitted (for a positive threshold). -/
theorem limiter_reset_allows (n w now : Nat) (s : RateLimitWindow) (hn : 0 < n)
    (h : s.windowStart + w ≤ now) :
    allowReq n w now s = (true, { windowStart := now, count := 1 }) := by
  simp [allowReq, h, hn]

/-- C7: for each contact route's configured quota `(n, w)`, a fixed
identity gets exactly `min k n` admissions out of `k` requests inside
one window, the request after `n` in-window admissions is denied, and a
request arriving once the window has elapsed is admitted again on a
reset counter. -/
theorem rate_limiter_fixed_window (r : ContactRoute) (t0 t' : Nat) (ts : List Nat)
    (s : RateLimitWindow) :
    ((∀ t ∈ ts, t < t0 + (routeQuota r).2) →
      countTrue (runLimiter (routeQuota r).1 (routeQuota r).2 ts
        { windowStart := t0, count := 0 }).1 = min ts.length (routeQuota r).1) ∧
    ((∀ t ∈ ts, t < t0 + (routeQuota r).2) → ts.length = (routeQuota r).1 →
      t' < t0 + (routeQuota r).2 →
      (allowReq (routeQuota r).1 (routeQuota r).2 t'
        (runLimiter (routeQuota r).1 (routeQuota r).2 ts
          { windowStart := t0, count := 0 }).2).1 = false) ∧
    (s.windowStart + (routeQuota r).2 ≤ t' →
      allowReq (routeQuota r).1 (routeQuota r).2 t' s
        = (true, { windowStart := t', count := 1 })) := by
  have hpos : 0 < (routeQuota r).1 := by cases r <;> decide
  refine ⟨?_, ?_, ?_⟩
  · intro hall
    have h := runLimiter_inWindow (routeQuota r).1 (routeQuota r).2 t0 ts 0
      (Nat.zero_le _) hall
    rw [h.1]
    omega
  · intro hall hlen ht'
    have h := runLimiter_inWindow (routeQuota r).1 (routeQuota r).2 t0 ts 0
      (Nat.zero_le _) hall
    rw [h.2, hlen]
    have hmin : min (0 + (routeQuota r).1) (routeQuota r).1 = (routeQuota r).1 := by
      omega
    rw [hmin, limiter_full_denies (routeQuota r).1 (routeQuota r).2 t' t0 ht']
  · intro h
    exact limiter_reset_allows (routeQuota r).1 (routeQuota r).2 t' s hpos h

theorem rate_limiter_fixed_window_witness :
    countTrue (runLimiter 1 60 [5] { windowStart := 0, count := 0 }).1
      = min [(5 : Nat)].length 1 ∧
    (allowReq 1 60 6 (runLimiter 1 60 [5] { windowStart := 0, count := 0 }).2).1 = false ∧
    allowReq 1 60 100 { windowStart := 0, count := 1 }
      = (true, { windowStart := 100, count := 1 }) :=
  ⟨(rate_limiter_fixed_window .remove 0 6 [5] { windowStart := 0, count := 1 }).1
      (by decide),
   (rate_limiter_fixed_window .remove 0 6 [5] { windowStart := 0, count := 1 }).2.1
      (by decide) (by decide) (by decide),
   (rate_limiter_fixed_window .remove 0 100 [5] { windowStart := 0, count := 1 }).2.2
      (by decide)⟩
